import Mathlib

/-!
# Verification of the SST time-series graph generator

Shallow embedding of `src/sst_timeseries_graph.py`:

* `SDate` models Python's `datetime` restricted to the fields the script
  uses (year, month, day), with the lexicographic comparison `datetime`
  provides.
* `generate_monthly_dates` is a direct translation of the `while` loop of
  the Python function of the same name (lines 110-133), assuming every
  `datetime` construction succeeds; `generate_monthly_dates_dt` and
  `collect_timeseries_data_dt` are the same functions with `datetime`'s
  `[1, 9999]` year-range validation (`ValueError` modelled as `.error`),
  which the program can hit at lines 122, 123 and 129.
* `fetch_sst_data` (lines 41-107) is embedded with the network interaction
  abstracted into a `TransportOutcome` value: the result of the single
  `requests.get` call plus the attempt to JSON-decode its body.  All other
  control flow (status-code test, application-status test, field
  extraction, the `except` handlers) is translated directly.
* `collect_timeseries_data` (lines 136-184) is embedded with the transport
  given as a function from the global call index (the calls are strictly
  sequential, so the index determines the request) and with an explicit
  event trace recording each fetch and each `time.sleep(delay)`.
* `create_graph_title` is the title expression of `create_graph`
  (lines 238-244), over the rendered latitude/longitude strings.

Measurement values are modelled as rationals.
-/

/-- A calendar date as the script uses it: Python `datetime` restricted to
`(year, month, day)`.  The script only ever builds first-of-month dates and
the fixed end marker `(end_year, 12, 31)`. -/
structure SDate where
  year : Int
  month : Nat
  day : Nat
deriving DecidableEq, Repr

/-- Python `datetime` comparison `<=`: lexicographic on (year, month, day). -/
def dateLE (a b : SDate) : Prop :=
  a.year < b.year ∨ (a.year = b.year ∧
    (a.month < b.month ∨ (a.month = b.month ∧ a.day ≤ b.day)))

/-- Python `datetime` comparison `<`: lexicographic on (year, month, day). -/
def dateLT (a b : SDate) : Prop :=
  a.year < b.year ∨ (a.year = b.year ∧
    (a.month < b.month ∨ (a.month = b.month ∧ a.day < b.day)))

instance (a b : SDate) : Decidable (dateLE a b) := by
  unfold dateLE; exact inferInstance

instance (a b : SDate) : Decidable (dateLT a b) := by
  unfold dateLT; exact inferInstance

/-- The `while current_date <= end_date` loop of `generate_monthly_dates`
(lines 125-131), under the assumption that every `datetime` construction
succeeds (`genLoopE` below is the same loop with `datetime`'s year-range
validation, under which the construction of the next month can raise).
`y`/`m` are the year and month of `current_date` (its day is always 1).
The loop only ever visits months `1..12`; the invariant `m ≤ 12` is
carried as an argument because termination depends on it. -/
def genLoop (end_date : SDate) (y : Int) (m : Nat) (hm : m ≤ 12) : List SDate :=
  if dateLE ⟨y, m, 1⟩ end_date then
    SDate.mk y m 1 ::
      (if h : m = 12 then
        genLoop end_date (y + 1) 1 (by omega)
      else
        genLoop end_date y (m + 1) (by omega))
  else
    []
termination_by ((end_date.year - y) * 12 + 13 - (m : Int)).toNat
decreasing_by
  · simp only [dateLE] at *
    omega
  · simp only [dateLE] at *
    omega

/-- `generate_monthly_dates(start_year, end_year)` (lines 110-133): dates
from `(start_year, 1, 1)` stepping one month at a time while
`current_date <= (end_year, 12, 31)`, under the assumption that every
`datetime` construction succeeds.  This matches the program exactly for
year arguments in `[1, 9999]` with `end_year ≤ 9998`;
`generate_monthly_dates_dt` below is the full embedding with `datetime`'s
`[1, 9999]` year validation, under which the program raises `ValueError`
at `end_year = 9999` or out-of-range arguments. -/
def generate_monthly_dates (start_year end_year : Int) : List SDate :=
  genLoop ⟨end_year, 12, 31⟩ start_year 1 (by omega)

/-- The date reached from `(y, m, 1)` after `i` one-month steps
(months numbered 1..12). Closed form used to evaluate and reason about
`genLoop`. -/
def addMonths (y : Int) (m : Nat) (i : Nat) : SDate :=
  ⟨y + ((m - 1 + i) / 12 : Nat), (m - 1 + i) % 12 + 1, 1⟩

/-- Number of months from `(y, m)` through `(e, 12)` inclusive (0 when
`y > e`). -/
def monthCount (e y : Int) (m : Nat) : Nat :=
  ((e - y) * 12 + 13 - (m : Int)).toNat

/-- Python's `datetime(year, month, day)` constructor with its year-range
validation: `MINYEAR = 1`, `MAXYEAR = 9999`, and a `ValueError` outside
that range.  The month/day arguments at every constructor call of the
script (month 1..12 with day 1, or December 31) always pass `datetime`'s
month/day validation, so only the year check is observable here. -/
def datetime (year : Int) (month day : Nat) : Except String SDate :=
  if 1 ≤ year ∧ year ≤ 9999 then
    .ok ⟨year, month, day⟩
  else
    .error "year is out of range"

/-- The `while` loop of `generate_monthly_dates` with `datetime`'s
year-range validation: after appending `(y, m, 1)` the loop constructs the
next month's `datetime` (line 129/131), which can raise — in Python the
raised `ValueError` discards the locally accumulated list, so an error
result carries no partial list.  `genLoop` is the same loop under the
assumption that every `datetime` construction succeeds. -/
def genLoopE (end_date : SDate) (y : Int) (m : Nat) (hm : m ≤ 12) :
    Except String (List SDate) :=
  if dateLE ⟨y, m, 1⟩ end_date then
    if h : m = 12 then
      match datetime (y + 1) 1 1 with
      | .error msg => .error msg
      | .ok _ =>
        match genLoopE end_date (y + 1) 1 (by omega) with
        | .error msg => .error msg
        | .ok rest => .ok (SDate.mk y m 1 :: rest)
    else
      match datetime y (m + 1) 1 with
      | .error msg => .error msg
      | .ok _ =>
        match genLoopE end_date y (m + 1) (by omega) with
        | .error msg => .error msg
        | .ok rest => .ok (SDate.mk y m 1 :: rest)
  else
    .ok []
termination_by ((end_date.year - y) * 12 + 13 - (m : Int)).toNat
decreasing_by
  · simp only [dateLE] at *
    omega
  · simp only [dateLE] at *
    omega

/-- `generate_monthly_dates` (lines 110-133) with `datetime`'s year-range
validation: line 122 (`datetime(start_year, 1, 1)`) and line 123
(`datetime(end_year, 12, 31)`) can raise for years outside `[1, 9999]`,
and the loop itself raises at `end_year = 9999` when it constructs
`datetime(10000, 1, 1)` after appending December 9999.  An `.error` result
models the escaping `ValueError`. -/
def generate_monthly_dates_dt (start_year end_year : Int) :
    Except String (List SDate) :=
  match datetime start_year 1 1 with
  | .error msg => .error msg
  | .ok _ =>
    match datetime end_year 12 31 with
    | .error msg => .error msg
    | .ok _ => genLoopE ⟨end_year, 12, 31⟩ start_year 1 (by omega)

/-- The `data` object of a decoded response payload: the two fields the
script reads with `data_obj.get('temperature')` / `data_obj.get('anomaly')`
(lines 92-96); `Option` models a missing key. -/
structure DataObj where
  temperature : Option ℚ
  anomaly : Option ℚ
deriving DecidableEq, Repr

/-- A decoded JSON response payload, restricted to the keys the script
reads: `data.get('status')`, `data.get('data', {})`, and
`data.get('detail', 'Unknown error')`. -/
structure Payload where
  status : Option String
  data : Option DataObj
  detail : Option String
deriving DecidableEq, Repr

/-- Result of `response.json()` on a received response: either a decoded
payload or a raised decode error (malformed body).  In the `requests`
library the decode error is a `RequestException`. -/
inductive JsonResult where
  | ok (p : Payload)
  | malformed (msg : String)
deriving DecidableEq, Repr

/-- Outcome of the single `requests.get` transport interaction of
`fetch_sst_data` (lines 82-87): a response with an HTTP status code and a
(possibly undecodable) body, or an exception raised by the transport.
`requestException` is `requests.exceptions.RequestException` (line 102);
`unexpectedException` is any other exception (line 104). -/
inductive TransportOutcome where
  | response (status_code : Nat) (json : JsonResult)
  | requestException (msg : String)
  | unexpectedException (msg : String)
deriving DecidableEq, Repr

/-- The four `logger.warning` sites of `fetch_sst_data` (lines 98, 100,
103, 105), each carrying the date, the metric (`data_type`) and the
cause. -/
inductive LogWarning where
  | nonSuccessStatus (date : SDate) (data_type : String) (detail : String)
  | httpError (date : SDate) (data_type : String) (status_code : Nat)
  | requestExc (date : SDate) (data_type : String) (msg : String)
  | unexpected (date : SDate) (data_type : String) (msg : String)
deriving DecidableEq, Repr

/-- `fetch_sst_data` (lines 41-107) with the transport interaction given as
a `TransportOutcome`.  Returns the extracted value (or `none`) together
with the list of warnings the call logs.  The function is total: every
failure path ends at the final `return None` (line 107). -/
def fetch_sst_data (data_type : String) (date : SDate)
    (outcome : TransportOutcome) : Option ℚ × List LogWarning :=
  match outcome with
  | .response status_code json =>
    if status_code = 200 then
      match json with
      | .ok data =>
        if data.status = some "success" then
          let data_obj := data.data.getD ⟨none, none⟩
          if data_type = "mean" then
            (data_obj.temperature, [])
          else  -- anomaly
            (data_obj.anomaly, [])
        else
          (none, [.nonSuccessStatus date data_type
            (data.detail.getD "Unknown error")])
      | .malformed msg => (none, [.requestExc date data_type msg])
    else
      (none, [.httpError date data_type status_code])
  | .requestException msg => (none, [.requestExc date data_type msg])
  | .unexpectedException msg => (none, [.unexpected date data_type msg])

/-- A transport outcome that the script treats as a failure: non-200
status, undecodable body, application-level non-success status, or a
raised exception.  (A well-formed success payload with the requested field
missing is *not* a failure: it yields `none` with no warning.) -/
def isFailure : TransportOutcome → Bool
  | .response status_code (.ok p) =>
    status_code != 200 || p.status != some "success"
  | .response _ (.malformed _) => true
  | .requestException _ => true
  | .unexpectedException _ => true

/-- Observable events of the collection loop (lines 167-180): each
individual Point Fetcher call and each `time.sleep(delay)`. -/
inductive Event where
  | fetchCall (data_type : String) (date : SDate)
  | sleep (seconds : ℚ)
deriving DecidableEq, Repr

/-- The result of `collect_timeseries_data`: the returned triple
`(dates, temperatures, anomalies)` plus the event trace of the run. -/
structure CollectResult where
  dates : List SDate
  temperatures : List (Option ℚ)
  anomalies : List (Option ℚ)
  trace : List Event
deriving DecidableEq, Repr

/-- The `for i, date_str in enumerate(dates_str)` loop of
`collect_timeseries_data` (lines 167-180).  `k` is the global index of the
next transport call; calls are strictly sequential, so the transport is a
function of that index.  Per date: fetch `'mean'`, append, sleep, fetch
`'anomaly'`, append, sleep. -/
def collectLoop (transport : Nat → TransportOutcome) (delay : ℚ) :
    List SDate → Nat → List (Option ℚ) × List (Option ℚ) × List Event
  | [], _ => ([], [], [])
  | date :: rest, k =>
    let temp := (fetch_sst_data "mean" date (transport k)).1
    let anom := (fetch_sst_data "anomaly" date (transport (k + 1))).1
    let r := collectLoop transport delay rest (k + 2)
    (temp :: r.1, anom :: r.2.1,
      Event.fetchCall "mean" date :: Event.sleep delay ::
        Event.fetchCall "anomaly" date :: Event.sleep delay :: r.2.2)

/-- `collect_timeseries_data` (lines 136-184).  `lat`, `lon` and `api_key`
are forwarded to every request and do not influence the core control flow;
the network is abstracted by `transport`.  The `datetime.strptime` round
trip of line 159 is the identity on the generated first-of-month dates. -/
def collect_timeseries_data (transport : Nat → TransportOutcome)
    (lat lon : ℚ) (start_year end_year : Int) (api_key : String)
    (delay : ℚ) : CollectResult :=
  let dates := generate_monthly_dates start_year end_year
  let r := collectLoop transport delay dates 0
  ⟨dates, r.1, r.2.1, r.2.2⟩

/-- `collect_timeseries_data` (lines 136-184) with `datetime`'s year-range
validation: the `ValueError` escaping `generate_monthly_dates` at line 158
propagates out of the collector (no partial result). -/
def collect_timeseries_data_dt (transport : Nat → TransportOutcome)
    (lat lon : ℚ) (start_year end_year : Int) (api_key : String)
    (delay : ℚ) : Except String CollectResult :=
  match generate_monthly_dates_dt start_year end_year with
  | .error msg => .error msg
  | .ok dates =>
    let r := collectLoop transport delay dates 0
    .ok ⟨dates, r.1, r.2.1, r.2.2⟩

/-- Simulated transport of the end-to-end scenario: every call succeeds,
the i-th call in sequence carrying temperature `20.0 + 0.01*i` and anomaly
`0.5`. -/
def simTransport (i : Nat) : TransportOutcome :=
  .response 200 (.ok
    ⟨some "success", some ⟨some (20 + (i : ℚ) / 100), some (1 / 2)⟩, none⟩)

/-- The title expression of `create_graph` (lines 238-244), over the
rendered latitude/longitude strings interpolated by the f-string.  Note the
range label `(1981-2025)` is a literal: `create_graph` receives no
start/end years. -/
def create_graph_title (lat lon : String) : String :=
  "SST Time Series: Temperature and Anomaly\nLocation: " ++ lat ++
    "°N, " ++ lon ++ "°E (1981-2025)"

/-- `leadsWith needle hay`: `needle` is an initial run of `hay`. -/
def leadsWith : List Char → List Char → Bool
  | [], _ => true
  | _ :: _, [] => false
  | a :: as, b :: bs => a == b && leadsWith as bs

/-- `hasRun needle hay`: `needle` occurs contiguously somewhere in
`hay`. -/
def hasRun (needle : List Char) : List Char → Bool
  | [] => leadsWith needle []
  | b :: hay => leadsWith needle (b :: hay) || hasRun needle hay

/-- `mentions needle hay`: the string `needle` occurs contiguously in the
string `hay`. -/
def mentions (needle hay : String) : Prop :=
  hasRun needle.data hay.data = true

instance (needle hay : String) : Decidable (mentions needle hay) := by
  unfold mentions; exact inferInstance

theorem genLoop_eq_range (e : Int) (n : Nat) :
    ∀ (y : Int) (m : Nat) (hm1 : 1 ≤ m) (hm2 : m ≤ 12),
      monthCount e y m ≤ n →
      genLoop ⟨e, 12, 31⟩ y m hm2 =
        (List.range (monthCount e y m)).map (addMonths y m) := by
  induction n with
  | zero =>
    intro y m hm1 hm2 hn
    have hc : monthCount e y m = 0 := by omega
    have hy : e < y := by
      unfold monthCount at hc
      omega
    rw [genLoop]
    rw [if_neg]
    · rw [hc]; rfl
    · simp only [dateLE]
      omega
  | succ n ih =>
    intro y m hm1 hm2 hn
    rw [genLoop]
    by_cases hg : dateLE ⟨y, m, 1⟩ ⟨e, 12, 31⟩
    · rw [if_pos hg]
      have hy : y ≤ e := by
        simp only [dateLE] at hg
        omega
      by_cases h12 : m = 12
      · subst h12
        rw [dif_pos rfl]
        have hc : monthCount e y 12 = monthCount e (y + 1) 1 + 1 := by
          unfold monthCount; omega
        have hrec := ih (y + 1) 1 (by omega) (by omega) (by omega)
        rw [hrec, hc, List.range_succ_eq_map, List.map_cons, List.map_map]
        have hhead : addMonths y 12 0 = SDate.mk y 12 1 := by
          simp [addMonths]
        have htail : (addMonths y 12 ∘ Nat.succ) = addMonths (y + 1) 1 := by
          funext i
          simp only [Function.comp_apply, addMonths, SDate.mk.injEq, and_true]
          omega
        rw [hhead, htail]
      · rw [dif_neg h12]
        have hc : monthCount e y m = monthCount e y (m + 1) + 1 := by
          unfold monthCount; omega
        have hrec := ih y (m + 1) (by omega) (by omega) (by omega)
        rw [hrec, hc, List.range_succ_eq_map, List.map_cons, List.map_map]
        have hhead : addMonths y m 0 = SDate.mk y m 1 := by
          simp only [addMonths, SDate.mk.injEq, and_true]
          omega
        have htail : (addMonths y m ∘ Nat.succ) = addMonths y (m + 1) := by
          funext i
          simp only [Function.comp_apply, addMonths, SDate.mk.injEq, and_true]
          omega
        rw [hhead, htail]
    · rw [if_neg hg]
      have hc : monthCount e y m = 0 := by
        simp only [dateLE] at hg
        unfold monthCount
        omega
      rw [hc]; rfl

/-- Closed form of the generator: the axis is `monthCount e s 1` successive
months starting at January of `s`. -/
theorem generate_monthly_dates_eq (s e : Int) :
    generate_monthly_dates s e =
      (List.range (monthCount e s 1)).map (addMonths s 1) :=
  genLoop_eq_range e (monthCount e s 1) s 1 (by omega) (by omega) (le_refl _)

/-- Core axis properties of the loop arithmetic (no year validation):
for `s ≤ e`, `12*(e-s+1)` dates, strictly increasing, day 1, distinct
(year, month) pairs, and January..December of year `s` when `s = e`. -/
theorem generate_monthly_dates_axis_core (s e : Int) (h : s ≤ e) :
    ((generate_monthly_dates s e).length : Int) = 12 * (e - s + 1) ∧
    List.Pairwise dateLT (generate_monthly_dates s e) ∧
    (∀ d ∈ generate_monthly_dates s e, d.day = 1) ∧
    List.Pairwise (fun a b => a.year ≠ b.year ∨ a.month ≠ b.month)
      (generate_monthly_dates s e) ∧
    (s = e →
      (generate_monthly_dates s e).map SDate.month =
        [1, 2, 3, 4, 5, 6, 7, 8, 9, 10, 11, 12] ∧
      ∀ d ∈ generate_monthly_dates s e, d.year = s) := by
  rw [generate_monthly_dates_eq]
  refine ⟨?_, ?_, ?_, ?_, ?_⟩
  · rw [List.length_map, List.length_range]
    unfold monthCount
    omega
  · rw [List.pairwise_map]
    refine (List.pairwise_lt_range _).imp ?_
    intro i j hij
    simp only [dateLT, addMonths]
    omega
  · intro d hd
    rw [List.mem_map] at hd
    obtain ⟨i, _, rfl⟩ := hd
    rfl
  · rw [List.pairwise_map]
    refine (List.pairwise_lt_range _).imp ?_
    intro i j hij
    simp only [addMonths]
    omega
  · intro he
    subst he
    have h12 : monthCount s s 1 = 12 := by unfold monthCount; omega
    rw [h12]
    constructor
    · rw [List.map_map]
      simp only [Function.comp_def, addMonths]
      decide
    · intro d hd
      rw [List.mem_map] at hd
      obtain ⟨i, hi, rfl⟩ := hd
      rw [List.mem_range] at hi
      simp only [addMonths]
      omega

theorem genLoopE_eq_ok (e : Int) (he : e ≤ 9998) (n : Nat) :
    ∀ (y : Int) (m : Nat) (hm1 : 1 ≤ m) (hm2 : m ≤ 12), 1 ≤ y →
      monthCount e y m ≤ n →
      genLoopE ⟨e, 12, 31⟩ y m hm2 = .ok (genLoop ⟨e, 12, 31⟩ y m hm2) := by
  induction n with
  | zero =>
    intro y m hm1 hm2 hy hn
    have hng : ¬ dateLE ⟨y, m, 1⟩ ⟨e, 12, 31⟩ := by
      unfold monthCount at hn
      simp only [dateLE]
      omega
    rw [genLoopE, if_neg hng, genLoop, if_neg hng]
  | succ n ih =>
    intro y m hm1 hm2 hy hn
    by_cases hg : dateLE ⟨y, m, 1⟩ ⟨e, 12, 31⟩
    · have hy2 : y ≤ e := by
        simp only [dateLE] at hg
        omega
      rw [genLoopE, if_pos hg, genLoop, if_pos hg]
      by_cases h12 : m = 12
      · subst h12
        rw [dif_pos rfl, dif_pos rfl]
        have hok : datetime (y + 1) 1 1 = .ok ⟨y + 1, 1, 1⟩ := by
          unfold datetime
          rw [if_pos ⟨by omega, by omega⟩]
        have hc : monthCount e y 12 = monthCount e (y + 1) 1 + 1 := by
          unfold monthCount; omega
        rw [hok, ih (y + 1) 1 (by omega) (by omega) (by omega) (by omega)]
      · rw [dif_neg h12, dif_neg h12]
        have hok : datetime y (m + 1) 1 = .ok ⟨y, m + 1, 1⟩ := by
          unfold datetime
          rw [if_pos ⟨by omega, by omega⟩]
        have hc : monthCount e y m = monthCount e y (m + 1) + 1 := by
          unfold monthCount; omega
        rw [hok, ih y (m + 1) (by omega) (by omega) (by omega) (by omega)]
    · rw [genLoopE, if_neg hg, genLoop, if_neg hg]

theorem genLoopE_maxyear (n : Nat) :
    ∀ (y : Int) (m : Nat) (hm1 : 1 ≤ m) (hm2 : m ≤ 12),
      1 ≤ y → y ≤ 9999 → monthCount 9999 y m ≤ n →
      genLoopE ⟨9999, 12, 31⟩ y m hm2 = .error "year is out of range" := by
  induction n with
  | zero =>
    intro y m hm1 hm2 hy1 hy2 hn
    exfalso
    unfold monthCount at hn
    omega
  | succ n ih =>
    intro y m hm1 hm2 hy1 hy2 hn
    have hg : dateLE ⟨y, m, 1⟩ ⟨9999, 12, 31⟩ := by
      simp only [dateLE]
      omega
    rw [genLoopE, if_pos hg]
    by_cases h12 : m = 12
    · subst h12
      rw [dif_pos rfl]
      by_cases hmax : y = 9999
      · subst hmax
        have hbad : datetime (9999 + 1) 1 1 = .error "year is out of range" := by
          unfold datetime
          rw [if_neg (by omega)]
        rw [hbad]
      · have hok : datetime (y + 1) 1 1 = .ok ⟨y + 1, 1, 1⟩ := by
          unfold datetime
          rw [if_pos ⟨by omega, by omega⟩]
        have hc : monthCount 9999 y 12 = monthCount 9999 (y + 1) 1 + 1 := by
          unfold monthCount; omega
        rw [hok,
          ih (y + 1) 1 (by omega) (by omega) (by omega) (by omega) (by omega)]
    · rw [dif_neg h12]
      have hok : datetime y (m + 1) 1 = .ok ⟨y, m + 1, 1⟩ := by
        unfold datetime
        rw [if_pos ⟨by omega, by omega⟩]
      have hc : monthCount 9999 y m = monthCount 9999 y (m + 1) + 1 := by
        unfold monthCount; omega
      rw [hok,
        ih y (m + 1) (by omega) (by omega) (by omega) (by omega) (by omega)]

/-- Within `datetime`'s year range and with `end_year ≤ 9998`, the checked
generator succeeds and returns exactly what the loop arithmetic says. -/
theorem generate_monthly_dates_dt_eq_ok (s e : Int) (h1 : 1 ≤ s)
    (h2 : s ≤ 9999) (h3 : 1 ≤ e) (h4 : e ≤ 9998) :
    generate_monthly_dates_dt s e = .ok (generate_monthly_dates s e) := by
  have hds : datetime s 1 1 = .ok ⟨s, 1, 1⟩ := by
    unfold datetime
    rw [if_pos ⟨h1, h2⟩]
  have hde : datetime e 12 31 = .ok ⟨e, 12, 31⟩ := by
    unfold datetime
    rw [if_pos ⟨h3, by omega⟩]
  unfold generate_monthly_dates_dt generate_monthly_dates
  simp only [hds, hde]
  exact genLoopE_eq_ok e h4 (monthCount e s 1) s 1 (by omega) (by omega) h1
    (le_refl _)

/-- At `end_year = 9999` the program appends December 9999, then raises
`ValueError` building `datetime(10000, 1, 1)`. -/
theorem generate_monthly_dates_dt_maxyear (s : Int) (h1 : 1 ≤ s)
    (h2 : s ≤ 9999) :
    generate_monthly_dates_dt s 9999 = .error "year is out of range" := by
  have hds : datetime s 1 1 = .ok ⟨s, 1, 1⟩ := by
    unfold datetime
    rw [if_pos ⟨h1, h2⟩]
  have hde : datetime 9999 12 31 = .ok ⟨9999, 12, 31⟩ := by
    unfold datetime
    rw [if_pos ⟨by omega, by omega⟩]
  unfold generate_monthly_dates_dt
  simp only [hds, hde]
  exact genLoopE_maxyear (monthCount 9999 s 1) s 1 (by omega) (by omega) h1 h2
    (le_refl _)

/-- C1 counterexample: at the valid input `start_year = end_year = 9999`
(which the claim covers, `s ≤ e`), the program raises `ValueError`
(building `datetime(10000, 1, 1)` after appending December 9999) instead
of returning `12*(e-s+1) = 12` dates. -/
theorem generate_monthly_dates_axis_counterexample :
    generate_monthly_dates_dt 9999 9999 = .error "year is out of range" :=
  generate_monthly_dates_dt_maxyear 9999 (by decide) (by decide)

/-- C1 (amended): for `1 ≤ start_year ≤ end_year ≤ 9998` the generator
returns — without raising — exactly `12*(end_year-start_year+1)` dates,
strictly increasing, each the first day of a month, with all (year, month)
pairs distinct; for `start_year == end_year` the 12 dates span January
through December of that year.  (At `end_year = 9999`, or any year outside
`datetime`'s range `[1, 9999]`, the function raises `ValueError` instead:
see the counterexample.) -/
theorem generate_monthly_dates_axis_spec_checked (s e : Int)
    (h1 : 1 ≤ s) (h : s ≤ e) (h2 : e ≤ 9998) :
    generate_monthly_dates_dt s e = .ok (generate_monthly_dates s e) ∧
    ((generate_monthly_dates s e).length : Int) = 12 * (e - s + 1) ∧
    List.Pairwise dateLT (generate_monthly_dates s e) ∧
    (∀ d ∈ generate_monthly_dates s e, d.day = 1) ∧
    List.Pairwise (fun a b => a.year ≠ b.year ∨ a.month ≠ b.month)
      (generate_monthly_dates s e) ∧
    (s = e →
      (generate_monthly_dates s e).map SDate.month =
        [1, 2, 3, 4, 5, 6, 7, 8, 9, 10, 11, 12] ∧
      ∀ d ∈ generate_monthly_dates s e, d.year = s) :=
  ⟨generate_monthly_dates_dt_eq_ok s e h1 (by omega) (by omega) h2,
    generate_monthly_dates_axis_core s e h⟩

/-- C1 witness: the checked axis properties instantiated at the in-range
one-year range 2024-2024. -/
theorem generate_monthly_dates_axis_spec_checked_witness :
    ((1 : Int) ≤ 2024 ∧ (2024 : Int) ≤ 2024 ∧ (2024 : Int) ≤ 9998) ∧
    (generate_monthly_dates_dt 2024 2024 =
        .ok (generate_monthly_dates 2024 2024) ∧
      ((generate_monthly_dates 2024 2024).length : Int) =
        12 * (2024 - 2024 + 1) ∧
      List.Pairwise dateLT (generate_monthly_dates 2024 2024) ∧
      (∀ d ∈ generate_monthly_dates 2024 2024, d.day = 1) ∧
      List.Pairwise (fun a b => a.year ≠ b.year ∨ a.month ≠ b.month)
        (generate_monthly_dates 2024 2024) ∧
      ((2024 : Int) = 2024 →
        (generate_monthly_dates 2024 2024).map SDate.month =
          [1, 2, 3, 4, 5, 6, 7, 8, 9, 10, 11, 12] ∧
        ∀ d ∈ generate_monthly_dates 2024 2024, d.year = 2024)) :=
  ⟨⟨by decide, by decide, by decide⟩,
    generate_monthly_dates_axis_spec_checked 2024 2024 (by decide)
      (by decide) (by decide)⟩

/-- C8: `generate_monthly_dates` is a pure, deterministic function of its
two arguments: two invocations with identical arguments yield identical
sequences. -/
theorem generate_monthly_dates_deterministic (s e s' e' : Int)
    (hs : s = s') (he : e = e') :
    generate_monthly_dates s e = generate_monthly_dates s' e' := by
  subst hs he
  rfl

/-- C8 witness: determinism at the full default range. -/
theorem generate_monthly_dates_deterministic_witness :
    (1981 : Int) = 1981 ∧ (2025 : Int) = 2025 ∧
    generate_monthly_dates 1981 2025 = generate_monthly_dates 1981 2025 :=
  ⟨rfl, rfl, generate_monthly_dates_deterministic 1981 2025 1981 2025 rfl rfl⟩

theorem collectLoop_lengths (t : Nat → TransportOutcome) (δ : ℚ) :
    ∀ (ds : List SDate) (k : Nat),
      (collectLoop t δ ds k).1.length = ds.length ∧
      (collectLoop t δ ds k).2.1.length = ds.length := by
  intro ds
  induction ds with
  | nil =>
    intro k
    simp [collectLoop]
  | cons d rest ih =>
    intro k
    simp only [collectLoop, List.length_cons]
    exact ⟨by rw [(ih (k + 2)).1], by rw [(ih (k + 2)).2]⟩

/-- C2: the two value sequences returned by `collect_timeseries_data`
always have the same length as the returned date axis — which is exactly
the generated date axis — whatever the transport does. -/
theorem collect_timeseries_lengths (t : Nat → TransportOutcome)
    (lat lon : ℚ) (s e : Int) (api_key : String) (δ : ℚ) :
    (collect_timeseries_data t lat lon s e api_key δ).temperatures.length =
      (collect_timeseries_data t lat lon s e api_key δ).dates.length ∧
    (collect_timeseries_data t lat lon s e api_key δ).anomalies.length =
      (collect_timeseries_data t lat lon s e api_key δ).dates.length ∧
    (collect_timeseries_data t lat lon s e api_key δ).dates =
      generate_monthly_dates s e := by
  simp only [collect_timeseries_data]
  exact ⟨(collectLoop_lengths t δ _ 0).1, (collectLoop_lengths t δ _ 0).2,
    trivial⟩

theorem collectLoop_spec (t : Nat → TransportOutcome) (δ : ℚ) :
    ∀ (ds : List SDate) (k : Nat),
      (collectLoop t δ ds k).2.2 = ds.flatMap (fun d =>
        [Event.fetchCall "mean" d, Event.sleep δ,
         Event.fetchCall "anomaly" d, Event.sleep δ]) ∧
      (collectLoop t δ ds k).1 = (List.range ds.length).map (fun j =>
        (fetch_sst_data "mean" (ds.getD j ⟨0, 1, 1⟩) (t (k + 2 * j))).1) ∧
      (collectLoop t δ ds k).2.1 = (List.range ds.length).map (fun j =>
        (fetch_sst_data "anomaly" (ds.getD j ⟨0, 1, 1⟩)
          (t (k + 2 * j + 1))).1) := by
  intro ds
  induction ds with
  | nil =>
    intro k
    simp [collectLoop]
  | cons d rest ih =>
    intro k
    refine ⟨?_, ?_, ?_⟩
    · simp only [collectLoop, List.flatMap_cons]
      rw [(ih (k + 2)).1]
      rfl
    · simp only [collectLoop, List.length_cons, List.range_succ_eq_map,
        List.map_cons, List.map_map]
      rw [(ih (k + 2)).2.1]
      congr 1
      apply List.map_congr_left
      intro j hj
      simp only [Function.comp_apply, List.getD_cons_succ]
      have harg : k + 2 + 2 * j = k + 2 * (j + 1) := by omega
      rw [harg]
    · simp only [collectLoop, List.length_cons, List.range_succ_eq_map,
        List.map_cons, List.map_map]
      rw [(ih (k + 2)).2.2]
      congr 1
      apply List.map_congr_left
      intro j hj
      simp only [Function.comp_apply, List.getD_cons_succ]
      have harg : k + 2 + 2 * j + 1 = k + 2 * (j + 1) + 1 := by omega
      rw [harg]

/-- C6: the collector is strictly sequential by (date, metric): its trace
is, per axis date in order, a Temperature fetch, a pacing sleep, an
Anomaly fetch, a pacing sleep; and the j-th temperature (resp. anomaly)
entry is the result of transport call `2*j` (resp. `2*j + 1`) on the j-th
axis date. -/
theorem collect_timeseries_sequential (t : Nat → TransportOutcome)
    (lat lon : ℚ) (s e : Int) (api_key : String) (δ : ℚ) :
    (collect_timeseries_data t lat lon s e api_key δ).trace =
      (generate_monthly_dates s e).flatMap (fun d =>
        [Event.fetchCall "mean" d, Event.sleep δ,
         Event.fetchCall "anomaly" d, Event.sleep δ]) ∧
    (collect_timeseries_data t lat lon s e api_key δ).temperatures =
      (List.range (generate_monthly_dates s e).length).map (fun j =>
        (fetch_sst_data "mean"
          ((generate_monthly_dates s e).getD j ⟨0, 1, 1⟩) (t (2 * j))).1) ∧
    (collect_timeseries_data t lat lon s e api_key δ).anomalies =
      (List.range (generate_monthly_dates s e).length).map (fun j =>
        (fetch_sst_data "anomaly"
          ((generate_monthly_dates s e).getD j ⟨0, 1, 1⟩)
          (t (2 * j + 1))).1) := by
  simp only [collect_timeseries_data]
  refine ⟨(collectLoop_spec t δ _ 0).1, ?_, ?_⟩
  · rw [(collectLoop_spec t δ _ 0).2.1]
    apply List.map_congr_left
    intro j hj
    rw [Nat.zero_add]
  · rw [(collectLoop_spec t δ _ 0).2.2]
    apply List.map_congr_left
    intro j hj
    rw [Nat.zero_add]

theorem fetch_sim_mean (date : SDate) (k : Nat) :
    fetch_sst_data "mean" date (simTransport k) =
      (some (20 + (k : ℚ) / 100), []) := rfl

theorem fetch_sim_anomaly (date : SDate) (k : Nat) :
    fetch_sst_data "anomaly" date (simTransport k) = (some (1 / 2), []) :=
  rfl

/-- C5: against the simulated transport whose i-th call returns
temperature `20 + i/100` and anomaly `1/2`, collecting the 2-year range
2024-2025 yields 24 index-aligned entries per sequence, all present, with
strictly increasing temperatures. -/
theorem collect_sim_two_years :
    (collect_timeseries_data simTransport 38.13 4.13 2024 2025 "key"
        (1 / 10)).dates.length = 24 ∧
    (collect_timeseries_data simTransport 38.13 4.13 2024 2025 "key"
        (1 / 10)).temperatures.length = 24 ∧
    (collect_timeseries_data simTransport 38.13 4.13 2024 2025 "key"
        (1 / 10)).anomalies.length = 24 ∧
    (∀ x ∈ (collect_timeseries_data simTransport 38.13 4.13 2024 2025 "key"
        (1 / 10)).anomalies, x ≠ none) ∧
    ∃ qs : List ℚ,
      (collect_timeseries_data simTransport 38.13 4.13 2024 2025 "key"
          (1 / 10)).temperatures = qs.map some ∧
      qs.length = 24 ∧
      List.Pairwise (· < ·) qs := by
  have hd : generate_monthly_dates 2024 2025 =
      (List.range 24).map (addMonths 2024 1) := by
    rw [generate_monthly_dates_eq]
    decide
  have hlen : (generate_monthly_dates 2024 2025).length = 24 := by
    rw [hd, List.length_map, List.length_range]
  have hspec :=
    collectLoop_spec simTransport (1 / 10) (generate_monthly_dates 2024 2025) 0
  simp only [collect_timeseries_data]
  refine ⟨hlen, ?_, ?_, ?_, ?_⟩
  · rw [hspec.2.1, List.length_map, List.length_range, hlen]
  · rw [hspec.2.2, List.length_map, List.length_range, hlen]
  · rw [hspec.2.2]
    intro x hx
    rw [List.mem_map] at hx
    obtain ⟨j, _, rfl⟩ := hx
    rw [fetch_sim_anomaly]
    simp
  · refine ⟨(List.range 24).map (fun j => 20 + ((2 * j : ℕ) : ℚ) / 100),
      ?_, ?_, ?_⟩
    · rw [hspec.2.1, hlen, List.map_map]
      apply List.map_congr_left
      intro j hj
      rw [Function.comp_apply, fetch_sim_mean]
      rw [Nat.zero_add]
    · rw [List.length_map, List.length_range]
    · rw [List.pairwise_map]
      refine (List.pairwise_lt_range _).imp ?_
      intro i j hij
      have hij' : (i : ℚ) < (j : ℚ) := by exact_mod_cast hij
      push_cast
      linarith

/-- C9 counterexample: at `(start_year, end_year) = (10000, 2020)` — which
satisfies the claim's `start_year > end_year` — line 122's
`datetime(start_year, 1, 1)` raises `ValueError`, so neither the generator
nor the collector returns empty sequences: the claim's "rather than
raising an error" fails. -/
theorem collect_reversed_counterexample :
    generate_monthly_dates_dt 10000 2020 = .error "year is out of range" ∧
    collect_timeseries_data_dt (fun _ => .requestException "down") 38.13
      4.13 10000 2020 "key" (1 / 10) = .error "year is out of range" :=
  ⟨rfl, rfl⟩

/-- C9 (amended): when `start_year > end_year` with both years inside
`datetime`'s valid range `[1, 9999]`, the generator returns the empty list
without raising, so the collector returns three empty sequences and
performs no fetches (empty trace); for year arguments outside that range
the `datetime` constructors of lines 122-123 raise `ValueError` instead
(see the counterexample). -/
theorem collect_empty_when_reversed_checked (t : Nat → TransportOutcome)
    (lat lon : ℚ) (s e : Int) (api_key : String) (δ : ℚ)
    (h1 : 1 ≤ e) (h2 : e < s) (h3 : s ≤ 9999) :
    generate_monthly_dates_dt s e = .ok [] ∧
    collect_timeseries_data_dt t lat lon s e api_key δ =
      .ok ⟨[], [], [], []⟩ := by
  have hds : datetime s 1 1 = .ok ⟨s, 1, 1⟩ := by
    unfold datetime
    rw [if_pos ⟨by omega, by omega⟩]
  have hde : datetime e 12 31 = .ok ⟨e, 12, 31⟩ := by
    unfold datetime
    rw [if_pos ⟨by omega, by omega⟩]
  have hng : ¬ dateLE ⟨s, 1, 1⟩ ⟨e, 12, 31⟩ := by
    simp only [dateLE]
    omega
  have hloop : genLoopE ⟨e, 12, 31⟩ s 1 (by omega) = .ok [] := by
    rw [genLoopE, if_neg hng]
  have hgen : generate_monthly_dates_dt s e = .ok [] := by
    unfold generate_monthly_dates_dt
    simp only [hds, hde]
    exact hloop
  refine ⟨hgen, ?_⟩
  unfold collect_timeseries_data_dt
  simp only [hgen]
  simp [collectLoop]

/-- C9 witness: the reversed in-range run 2025..2024 with a transport that
would always fail. -/
theorem collect_empty_when_reversed_checked_witness :
    ((1 : Int) ≤ 2024 ∧ (2024 : Int) < 2025 ∧ (2025 : Int) ≤ 9999) ∧
    (generate_monthly_dates_dt 2025 2024 = .ok [] ∧
      collect_timeseries_data_dt (fun _ => .requestException "down") 38.13
        4.13 2025 2024 "key" (1 / 10) = .ok ⟨[], [], [], []⟩) :=
  ⟨⟨by decide, by decide, by decide⟩,
    collect_empty_when_reversed_checked (fun _ => .requestException "down")
      38.13 4.13 2025 2024 "key" (1 / 10) (by decide) (by decide)
      (by decide)⟩

/-- C3: every failing transport outcome — non-200 status, undecodable
payload, application-level non-success status, or a raised exception —
makes `fetch_sst_data` return `none` (no error escapes: the embedding is a
total function) and log exactly one warning. -/
theorem fetch_failure_absent (data_type : String) (date : SDate)
    (o : TransportOutcome) (h : isFailure o = true) :
    (fetch_sst_data data_type date o).1 = none ∧
    (fetch_sst_data data_type date o).2.length = 1 := by
  cases o with
  | response status_code json =>
    cases json with
    | ok p =>
      simp only [isFailure, Bool.or_eq_true, bne_iff_ne, ne_eq] at h
      by_cases hc : status_code = 200
      · subst hc
        have hs : ¬ p.status = some "success" := by
          rcases h with h | h
          · exact absurd rfl h
          · exact h
        simp [fetch_sst_data, hs]
      · simp [fetch_sst_data, hc]
    | malformed msg =>
      by_cases hc : status_code = 200 <;> simp [fetch_sst_data, hc]
  | requestException msg => simp [fetch_sst_data]
  | unexpectedException msg => simp [fetch_sst_data]

/-- C3 witness: a simulated transport answering HTTP 500 yields `none` and
exactly one warning. -/
theorem fetch_failure_absent_witness :
    isFailure (.response 500 (.ok ⟨none, none, none⟩)) = true ∧
    ((fetch_sst_data "mean" ⟨2020, 1, 1⟩
        (.response 500 (.ok ⟨none, none, none⟩))).1 = none ∧
      (fetch_sst_data "mean" ⟨2020, 1, 1⟩
        (.response 500 (.ok ⟨none, none, none⟩))).2.length = 1) :=
  ⟨by decide, fetch_failure_absent "mean" ⟨2020, 1, 1⟩
    (.response 500 (.ok ⟨none, none, none⟩)) (by decide)⟩

/-- C4: a 200 response with payload
`{"status":"success","data":{"temperature":17.5}}` yields `17.5` for the
Temperature metric (`'mean'`) and `none` for the Anomaly metric (the
`anomaly` field is missing). -/
theorem fetch_success_extraction :
    (fetch_sst_data "mean" ⟨2020, 1, 1⟩ (.response 200 (.ok
      ⟨some "success", some ⟨some (17.5 : ℚ), none⟩, none⟩))).1 =
        some (17.5 : ℚ) ∧
    (fetch_sst_data "anomaly" ⟨2020, 1, 1⟩ (.response 200 (.ok
      ⟨some "success", some ⟨some (17.5 : ℚ), none⟩, none⟩))).1 = none :=
  ⟨rfl, rfl⟩

/-- C10: on a decoded success payload, `fetch_sst_data` extracts the
temperature field exactly when `data_type` is the string `'mean'`;
any other `data_type` string extracts the anomaly field — unknown metric
selectors are not rejected. -/
theorem fetch_metric_selector (data_type : String) (date : SDate)
    (p : Payload) (h : p.status = some "success") :
    (data_type = "mean" →
      fetch_sst_data data_type date (.response 200 (.ok p)) =
        ((p.data.getD ⟨none, none⟩).temperature, [])) ∧
    (data_type ≠ "mean" →
      fetch_sst_data data_type date (.response 200 (.ok p)) =
        ((p.data.getD ⟨none, none⟩).anomaly, [])) := by
  constructor
  · intro hm
    subst hm
    simp [fetch_sst_data, h]
  · intro hm
    simp [fetch_sst_data, h, hm]

/-- C10 witness: the unknown selector `'climatology'` is routed to the
anomaly field. -/
theorem fetch_metric_selector_witness :
    (⟨some "success", some ⟨some (1 : ℚ), some (2 : ℚ)⟩, none⟩ :
        Payload).status = some "success" ∧
    (("climatology" = "mean" →
        fetch_sst_data "climatology" ⟨2020, 1, 1⟩ (.response 200 (.ok
          ⟨some "success", some ⟨some (1 : ℚ), some (2 : ℚ)⟩, none⟩)) =
          (((⟨some "success", some ⟨some (1 : ℚ), some (2 : ℚ)⟩, none⟩ :
            Payload).data.getD ⟨none, none⟩).temperature, [])) ∧
      ("climatology" ≠ "mean" →
        fetch_sst_data "climatology" ⟨2020, 1, 1⟩ (.response 200 (.ok
          ⟨some "success", some ⟨some (1 : ℚ), some (2 : ℚ)⟩, none⟩)) =
          (((⟨some "success", some ⟨some (1 : ℚ), some (2 : ℚ)⟩, none⟩ :
            Payload).data.getD ⟨none, none⟩).anomaly, []))) :=
  ⟨rfl, fetch_metric_selector "climatology" ⟨2020, 1, 1⟩
    ⟨some "success", some ⟨some (1 : ℚ), some (2 : ℚ)⟩, none⟩ rfl⟩

theorem str_data_append (a b : String) : (a ++ b).data = a.data ++ b.data :=
  rfl

theorem leadsWith_append (n t : List Char) : leadsWith n (n ++ t) = true := by
  induction n with
  | nil => rfl
  | cons a as ih => simp [leadsWith, ih]

theorem hasRun_of_leadsWith (n h : List Char) (hl : leadsWith n h = true) :
    hasRun n h = true := by
  cases h with
  | nil => simpa [hasRun] using hl
  | cons b hay => simp [hasRun, hl]

theorem hasRun_cons (n h : List Char) (b : Char) (hh : hasRun n h = true) :
    hasRun n (b :: h) = true := by
  simp [hasRun, hh]

theorem hasRun_append_right (n s h : List Char) (hh : hasRun n h = true) :
    hasRun n (s ++ h) = true := by
  induction s with
  | nil => simpa
  | cons b bs ih => exact hasRun_cons _ _ _ ih

/-- C7 counterexample: for the run collected over 2000-2001 the chart
title (location rendered as the default `38.13`/`4.13`) mentions neither
`2000` nor `2001`; it carries the fixed label `1981-2025` instead, because
`create_graph` receives no start/end years and its title hardcodes the
range. -/
theorem create_graph_title_counterexample :
    ¬ mentions "2000" (create_graph_title "38.13" "4.13") ∧
    ¬ mentions "2001" (create_graph_title "38.13" "4.13") ∧
    mentions "1981-2025" (create_graph_title "38.13" "4.13") := by
  decide

/-- C7 amended: for every rendered location, the chart title names the
location (both coordinate strings occur in it) and the fixed date-range
label `(1981-2025)` — independent of the caller's start and end years. -/
theorem create_graph_title_amended (lat lon : String) :
    mentions lat (create_graph_title lat lon) ∧
    mentions lon (create_graph_title lat lon) ∧
    mentions "(1981-2025)" (create_graph_title lat lon) := by
  have hdata : (create_graph_title lat lon).data =
      "SST Time Series: Temperature and Anomaly\nLocation: ".data ++
        (lat.data ++ ("°N, ".data ++ (lon.data ++ "°E (1981-2025)".data))) := by
    simp [create_graph_title, str_data_append, List.append_assoc]
  refine ⟨?_, ?_, ?_⟩
  · simp only [mentions, hdata]
    apply hasRun_append_right
    exact hasRun_of_leadsWith _ _ (leadsWith_append _ _)
  · simp only [mentions, hdata]
    apply hasRun_append_right
    apply hasRun_append_right
    apply hasRun_append_right
    exact hasRun_of_leadsWith _ _ (leadsWith_append _ _)
  · simp only [mentions, hdata]
    apply hasRun_append_right
    apply hasRun_append_right
    apply hasRun_append_right
    apply hasRun_append_right
    decide
